import Mathlib

/-!
# Relógio analógico: shallow embedding of `main.js`

The script keeps its state in the page (the `<body>` element, the looked-up
elements, the theme buttons) and in `localStorage`.  Here that state is an
explicit record `World`, and every function of the script is a function on
`World`.  Element references obtained with `document.querySelector` may be
`null`; they are `Option` values.
-/

namespace Relogio

/-! ## Data model -/

/-- The `localStorage` object: `getItem` yields the stored string or `null`. -/
abbrev Storage := String → Option String

/-- Method `localStorage.getItem(key)`. -/
def Storage.getItem (st : Storage) (key : String) : Option String := st key

/-- Method `localStorage.setItem(key, value)`. -/
def Storage.setItem (st : Storage) (key value : String) : Storage :=
  fun k => if k = key then some value else st k

/-- A storage with no entries. -/
def Storage.empty : Storage := fun _ => none

/-- The value of `style.transform` written by `updateTime`: the template
literal with the number kept exact, the angle in degrees. -/
inductive Transform where
  | rotateDeg (deg : ℚ)
  deriving DecidableEq

/-- A clock hand (`.hour`, `.minute`, `.second`): only `style.transform` matters. -/
structure Hand where
  transform : Option Transform
  deriving DecidableEq

/-- A text element (`.mode-switch`, `#digital-time`, `#digital-date`): only
`textContent` matters. -/
structure TextEl where
  textContent : String
  deriving DecidableEq

/-- One `.theme-btn` element: its `data-theme` attribute (possibly missing)
and whether its class list holds `"is-active"`. -/
structure ThemeBtn where
  dataTheme : Option String
  isActive : Bool
  deriving DecidableEq

/-- The page together with `localStorage`. -/
structure World where
  /-- Attribute `body.dataset.theme`. -/
  bodyTheme : Option String
  /-- Whether `body.classList` holds `"dark"`. -/
  bodyDark : Bool
  hourHand : Option Hand
  minuteHand : Option Hand
  secondHand : Option Hand
  modeSwitch : Option TextEl
  digitalTimeEl : Option TextEl
  digitalDateEl : Option TextEl
  themeButtons : List ThemeBtn
  localStorage : Storage

/-- The sample `new Date()`, through the three getters the script reads; the
remaining calendar fields are only seen by the formatter. -/
structure JsDate where
  getHours : Nat
  getMinutes : Nat
  getSeconds : Nat
  getTime : Int
  deriving DecidableEq

/-- The only error the script could raise: a property access on `null`. -/
inductive JsError where
  | typeError (what : String)
  deriving DecidableEq

/-! ## Theme -/

/-- Call `btn.classList.toggle("is-active", force)`. -/
def ThemeBtn.toggleActive (btn : ThemeBtn) (force : Bool) : ThemeBtn :=
  { btn with isActive := force }

/-- Function `setTheme(theme)`. -/
def setTheme (theme : String) (w : World) : World :=
  { w with
    bodyTheme := some theme
    localStorage := w.localStorage.setItem "theme" theme
    themeButtons :=
      w.themeButtons.map (fun btn => btn.toggleActive (decide (btn.dataTheme = some theme))) }

/-- Expression `localStorage.getItem("theme") || "ocean"`: the empty string
is falsy, like `null`. -/
def storedThemeOrDefault (st : Storage) : String :=
  match st.getItem "theme" with
  | some t => if t = "" then "ocean" else t
  | none => "ocean"

/-! ## Dark mode -/

/-- Function `syncModeSwitchText()`. -/
def syncModeSwitchText (w : World) : World :=
  match w.modeSwitch with
  | none => w
  | some el =>
    let isDark := w.bodyDark
    { w with modeSwitch := some { el with textContent := if isDark then "Light Mode" else "Dark Mode" } }

/-- The top-level statement restoring the mode:
`if (localStorage.getItem("mode") === "Dark Mode") body.classList.add("dark")`. -/
def restoreMode (w : World) : World :=
  if w.localStorage.getItem "mode" = some "Dark Mode" then { w with bodyDark := true } else w

/-- Function `toggleDarkMode()`. -/
def toggleDarkMode (w : World) : World :=
  match w.modeSwitch with
  | none => w
  | some el =>
    let isDarkMode := !w.bodyDark
    { w with
      bodyDark := isDarkMode
      modeSwitch := some { el with textContent := if isDarkMode then "Light Mode" else "Dark Mode" }
      localStorage :=
        w.localStorage.setItem "mode" (if isDarkMode then "Dark Mode" else "Light Mode") }

/-- The startup sequence for theme and mode, in source order:
`setTheme(localStorage.getItem("theme") || "ocean")`, the restoring `if`,
`syncModeSwitchText()`. -/
def startup (w : World) : World :=
  syncModeSwitchText (restoreMode (setTheme (storedThemeOrDefault w.localStorage) w))

/-- A user action after startup: a click on a theme button, or a click or
key press on the mode switch. -/
inductive Action where
  | setTheme (name : String)
  | toggleDarkMode
  deriving DecidableEq

/-- Effect of one action. -/
def Action.apply : Action → World → World
  | .setTheme name, w => Relogio.setTheme name w
  | .toggleDarkMode, w => Relogio.toggleDarkMode w

/-- Effect of a sequence of actions, first to last. -/
def runActions (acts : List Action) (w : World) : World :=
  acts.foldl (fun s a => a.apply s) w

/-! ## Clock -/

/-- Value `hours` of `updateTime`: `date.getHours() % 12`. -/
def hours12 (d : JsDate) : Nat := d.getHours % 12

/-- Value `secToDeg` of `updateTime`. -/
def secToDeg (d : JsDate) : ℚ := ((d.getSeconds : ℚ) / 60) * 360

/-- Value `minToDeg` of `updateTime`. -/
def minToDeg (d : JsDate) : ℚ := (((d.getMinutes : ℚ) + (d.getSeconds : ℚ) / 60) / 60) * 360

/-- Value `hrToDeg` of `updateTime`. -/
def hrToDeg (d : JsDate) : ℚ := (((hours12 d : ℚ) + (d.getMinutes : ℚ) / 60) / 12) * 360

/-- Assignment `el.style.transform = value`; raises on `null`. -/
def setTransform (el : Option Hand) (value : Transform) : Except JsError (Option Hand) :=
  match el with
  | none => .error (.typeError "style of null")
  | some hand => .ok (some { hand with transform := some value })

/-- Assignment `el.textContent = value`; raises on `null`. -/
def setTextContent (el : Option TextEl) (value : String) : Except JsError (Option TextEl) :=
  match el with
  | none => .error (.typeError "textContent of null")
  | some node => .ok (some { node with textContent := value })

/-- Function `updateTime()`, with the sampled `date` and the two
`Intl.DateTimeFormat` formatters (locale dependent) as arguments. -/
def updateTime (fmtTime fmtDate : JsDate → String) (date : JsDate) (w : World) :
    Except JsError World := do
  let secondHand ←
    if w.secondHand.isSome then setTransform w.secondHand (.rotateDeg (secToDeg date))
    else pure w.secondHand
  let minuteHand ←
    if w.minuteHand.isSome then setTransform w.minuteHand (.rotateDeg (minToDeg date))
    else pure w.minuteHand
  let hourHand ←
    if w.hourHand.isSome then setTransform w.hourHand (.rotateDeg (hrToDeg date))
    else pure w.hourHand
  let digitalTimeEl ←
    if w.digitalTimeEl.isSome then setTextContent w.digitalTimeEl (fmtTime date)
    else pure w.digitalTimeEl
  let digitalDateEl ←
    if w.digitalDateEl.isSome then setTextContent w.digitalDateEl (fmtDate date)
    else pure w.digitalDateEl
  pure { w with
    secondHand := secondHand
    minuteHand := minuteHand
    hourHand := hourHand
    digitalTimeEl := digitalTimeEl
    digitalDateEl := digitalDateEl }

/-! ## Vocabulary of the statements -/

/-- A clock reading as the system delivers it: hours 0..23, minutes and
seconds 0..59. -/
def JsDate.Valid (d : JsDate) : Prop :=
  d.getHours ≤ 23 ∧ d.getMinutes ≤ 59 ∧ d.getSeconds ≤ 59

instance (d : JsDate) : Decidable d.Valid := by
  unfold JsDate.Valid; infer_instance

/-- Order of two readings as hours:minutes:seconds. -/
def JsDate.NotAfter (a b : JsDate) : Prop :=
  a.getHours < b.getHours ∨
    (a.getHours = b.getHours ∧
      (a.getMinutes < b.getMinutes ∨
        (a.getMinutes = b.getMinutes ∧ a.getSeconds ≤ b.getSeconds)))

instance (a b : JsDate) : Decidable (a.NotAfter b) := by
  unfold JsDate.NotAfter; infer_instance

/-- Both readings lie in the same minute. -/
def JsDate.SameMinute (a b : JsDate) : Prop :=
  a.getHours = b.getHours ∧ a.getMinutes = b.getMinutes

/-- Both readings lie in the same hour. -/
def JsDate.SameHour (a b : JsDate) : Prop := a.getHours = b.getHours

/-- Both readings lie in the same 12-hour half of the day. -/
def JsDate.SameHalf (a b : JsDate) : Prop := a.getHours / 12 = b.getHours / 12

instance (a b : JsDate) : Decidable (a.SameMinute b) := by
  unfold JsDate.SameMinute; infer_instance

instance (a b : JsDate) : Decidable (a.SameHour b) := by
  unfold JsDate.SameHour; infer_instance

instance (a b : JsDate) : Decidable (a.SameHalf b) := by
  unfold JsDate.SameHalf; infer_instance


/-- The state of a session: the startup sequence on the loaded page, then
the user's actions. -/
def session (page : World) (acts : List Action) : World :=
  runActions acts (startup page)

/-- A newly loaded page that finds the storage left by state `s`: the same
controls as in `s`, the body without the `"dark"` class. -/
def FreshPageFor (s page : World) : Prop :=
  page.bodyDark = false ∧
  page.localStorage = s.localStorage ∧
  page.themeButtons.map ThemeBtn.dataTheme = s.themeButtons.map ThemeBtn.dataTheme ∧
  page.modeSwitch.isSome = s.modeSwitch.isSome

/-- Number of theme buttons carrying `"is-active"`. -/
def activeCount (w : World) : Nat :=
  (w.themeButtons.filter (fun btn => btn.isActive)).length

/-- Number of theme buttons whose `data-theme` is `name`. -/
def matchingCount (name : String) (w : World) : Nat :=
  (w.themeButtons.filter (fun btn => decide (btn.dataTheme = some name))).length

/-- The literal `toggleDarkMode` stores for a given dark-mode flag. -/
def modeLiteral (dark : Bool) : String := if dark then "Dark Mode" else "Light Mode"

/-- The label `toggleDarkMode` and `syncModeSwitchText` show for a given
dark-mode flag. -/
def modeLabel (dark : Bool) : String := if dark then "Light Mode" else "Dark Mode"

/-- What startup and every later action maintain: the body theme marker is
the stored theme, the active buttons are those of that theme, the dark-mode
flag says whether "Dark Mode" is stored, and the toggle control, if present,
shows the label for the flag. -/
def Synced (s : World) : Prop :=
  ∃ t : String,
    s.localStorage.getItem "theme" = some t ∧
    s.bodyTheme = some t ∧
    (∀ btn ∈ s.themeButtons, btn.isActive = decide (btn.dataTheme = some t)) ∧
    s.bodyDark = decide (s.localStorage.getItem "mode" = some "Dark Mode") ∧
    s.modeSwitch = s.modeSwitch.map (fun _ => ⟨modeLabel s.bodyDark⟩)

/-! ## Sample pages -/

/-- A page with every expected element, three theme buttons, nothing stored. -/
def samplePage : World :=
  { bodyTheme := none
    bodyDark := false
    hourHand := some ⟨none⟩
    minuteHand := some ⟨none⟩
    secondHand := some ⟨none⟩
    modeSwitch := some ⟨"Dark Mode"⟩
    digitalTimeEl := some ⟨""⟩
    digitalDateEl := some ⟨""⟩
    themeButtons := [⟨some "ocean", true⟩, ⟨some "sunset", false⟩, ⟨some "forest", false⟩]
    localStorage := Storage.empty }

/-- The sample page with no theme buttons at all. -/
def noButtonsPage : World := { samplePage with themeButtons := [] }

/-- The sample page with `"Dark Mode"` stored under `"mode"`. -/
def darkStoredPage : World :=
  { samplePage with localStorage := Storage.empty.setItem "mode" "Dark Mode" }

/-- The sample page with a fourth theme button whose `data-theme` is empty. -/
def blankThemePage : World :=
  { samplePage with themeButtons := samplePage.themeButtons ++ [⟨some "", false⟩] }

/-- The page `blankThemePage` reloaded after a click on its fourth button. -/
def blankThemeReload : World :=
  { blankThemePage with localStorage := (session blankThemePage [.setTheme ""]).localStorage }

/-- The sample page reloaded after choosing "sunset" and toggling the mode. -/
def sampleReload : World :=
  { samplePage with
    localStorage := (session samplePage [.setTheme "sunset", .toggleDarkMode]).localStorage }

/-- The sample page without the second hand and without the date output. -/
def sparsePage : World := { samplePage with secondHand := none, digitalDateEl := none }

/-- A sample reading: 09:41:30. -/
def sampleDate : JsDate := ⟨9, 41, 30, 0⟩

/-! ## The clock angles -/

theorem hours12_lt (d : JsDate) : hours12 d < 12 := Nat.mod_lt _ (by decide)

theorem secToDeg_eq (d : JsDate) : secToDeg d = 6 * (d.getSeconds : ℚ) := by
  unfold secToDeg; ring

theorem minToDeg_eq (d : JsDate) :
    minToDeg d = 6 * (d.getMinutes : ℚ) + (d.getSeconds : ℚ) / 10 := by
  unfold minToDeg; ring

theorem hrToDeg_eq (d : JsDate) :
    hrToDeg d = 30 * (hours12 d : ℚ) + (d.getMinutes : ℚ) / 2 := by
  unfold hrToDeg; ring

/-- C4: for every reading with hours in 0..23, minutes in 0..59 and seconds
in 0..59, each of the three angles of `updateTime` lies in `[0, 360)`. -/
theorem updateTime_angles_in_range (d : JsDate) (hv : d.Valid) :
    (0 ≤ secToDeg d ∧ secToDeg d < 360) ∧
    (0 ≤ minToDeg d ∧ minToDeg d < 360) ∧
    (0 ≤ hrToDeg d ∧ hrToDeg d < 360) := by
  obtain ⟨_, hm, hs⟩ := hv
  have hh : hours12 d ≤ 11 := Nat.lt_succ_iff.mp (hours12_lt d)
  have hs0 : (0 : ℚ) ≤ d.getSeconds := Nat.cast_nonneg _
  have hm0 : (0 : ℚ) ≤ d.getMinutes := Nat.cast_nonneg _
  have hh0 : (0 : ℚ) ≤ hours12 d := Nat.cast_nonneg _
  have hs1 : (d.getSeconds : ℚ) ≤ 59 := by exact_mod_cast hs
  have hm1 : (d.getMinutes : ℚ) ≤ 59 := by exact_mod_cast hm
  have hh1 : (hours12 d : ℚ) ≤ 11 := by exact_mod_cast hh
  rw [secToDeg_eq, minToDeg_eq, hrToDeg_eq]
  refine ⟨⟨?_, ?_⟩, ⟨?_, ?_⟩, ⟨?_, ?_⟩⟩ <;> linarith

theorem updateTime_angles_in_range_witness :
    (JsDate.mk 23 59 59 0).Valid ∧
    ((0 ≤ secToDeg ⟨23, 59, 59, 0⟩ ∧ secToDeg ⟨23, 59, 59, 0⟩ < 360) ∧
     (0 ≤ minToDeg ⟨23, 59, 59, 0⟩ ∧ minToDeg ⟨23, 59, 59, 0⟩ < 360) ∧
     (0 ≤ hrToDeg ⟨23, 59, 59, 0⟩ ∧ hrToDeg ⟨23, 59, 59, 0⟩ < 360)) :=
  ⟨by decide, updateTime_angles_in_range ⟨23, 59, 59, 0⟩ (by decide)⟩

/-- C5: each angle of `updateTime` is non-decreasing within its wrap period
(the second angle within a minute, the minute angle within an hour, the hour
angle within a 12-hour half of the day) and is 0 at the start of the period. -/
theorem updateTime_angles_monotone (t1 t2 : JsDate) (h1 : t1.Valid) (h2 : t2.Valid)
    (hle : t1.NotAfter t2) :
    (t1.SameMinute t2 → secToDeg t1 ≤ secToDeg t2) ∧
    (t1.SameHour t2 → minToDeg t1 ≤ minToDeg t2) ∧
    (t1.SameHalf t2 → hrToDeg t1 ≤ hrToDeg t2) ∧
    (∀ d : JsDate, d.getSeconds = 0 → secToDeg d = 0) ∧
    (∀ d : JsDate, d.getMinutes = 0 → d.getSeconds = 0 → minToDeg d = 0) ∧
    (∀ d : JsDate, d.getHours % 12 = 0 → d.getMinutes = 0 → hrToDeg d = 0) := by
  obtain ⟨_, hm1, hs1⟩ := h1
  obtain ⟨_, hm2, hs2⟩ := h2
  have cs1 : (t1.getSeconds : ℚ) ≤ 59 := by exact_mod_cast hs1
  have cm1 : (t1.getMinutes : ℚ) ≤ 59 := by exact_mod_cast hm1
  have ns2 : (0 : ℚ) ≤ t2.getSeconds := Nat.cast_nonneg _
  have nm2 : (0 : ℚ) ≤ t2.getMinutes := Nat.cast_nonneg _
  refine ⟨?_, ?_, ?_, ?_, ?_, ?_⟩
  · rintro ⟨hh, hm⟩
    have hs : t1.getSeconds ≤ t2.getSeconds := by
      unfold JsDate.NotAfter at hle; omega
    have : (t1.getSeconds : ℚ) ≤ t2.getSeconds := by exact_mod_cast hs
    rw [secToDeg_eq, secToDeg_eq]; linarith
  · intro hh
    unfold JsDate.SameHour at hh
    rw [minToDeg_eq, minToDeg_eq]
    rcases Nat.lt_or_ge t1.getMinutes t2.getMinutes with hlt | hge
    · have : (t1.getMinutes : ℚ) + 1 ≤ t2.getMinutes := by exact_mod_cast hlt
      linarith
    · have hm : t1.getMinutes = t2.getMinutes := by
        unfold JsDate.NotAfter at hle; omega
      have hs : t1.getSeconds ≤ t2.getSeconds := by
        unfold JsDate.NotAfter at hle; omega
      have : (t1.getSeconds : ℚ) ≤ t2.getSeconds := by exact_mod_cast hs
      rw [hm]; linarith
  · intro hh
    unfold JsDate.SameHalf at hh
    rw [hrToDeg_eq, hrToDeg_eq]
    rcases Nat.lt_or_ge t1.getHours t2.getHours with hlt | hge
    · have hmod : hours12 t1 + 1 ≤ hours12 t2 := by
        unfold hours12; omega
      have : (hours12 t1 : ℚ) + 1 ≤ hours12 t2 := by exact_mod_cast hmod
      linarith
    · have he : t1.getHours = t2.getHours := by
        unfold JsDate.NotAfter at hle; omega
      have hm : t1.getMinutes ≤ t2.getMinutes := by
        unfold JsDate.NotAfter at hle; omega
      have : (t1.getMinutes : ℚ) ≤ t2.getMinutes := by exact_mod_cast hm
      have hq : hours12 t1 = hours12 t2 := by unfold hours12; rw [he]
      rw [hq]; linarith
  · intro d hs; rw [secToDeg_eq, hs]; simp
  · intro d hm hs; rw [minToDeg_eq, hm, hs]; simp
  · intro d hh hm
    have : hours12 d = 0 := hh
    rw [hrToDeg_eq, this, hm]; simp

theorem updateTime_angles_monotone_witness :
    (JsDate.mk 12 0 0 0).Valid ∧ (JsDate.mk 12 0 30 0).Valid ∧
    (JsDate.mk 12 0 0 0).NotAfter ⟨12, 0, 30, 0⟩ ∧
    secToDeg ⟨12, 0, 0, 0⟩ ≤ secToDeg ⟨12, 0, 30, 0⟩ ∧
    minToDeg ⟨12, 0, 0, 0⟩ ≤ minToDeg ⟨12, 0, 30, 0⟩ ∧
    hrToDeg ⟨12, 0, 0, 0⟩ ≤ hrToDeg ⟨12, 0, 30, 0⟩ ∧
    secToDeg ⟨12, 0, 0, 0⟩ = 0 ∧ minToDeg ⟨12, 0, 0, 0⟩ = 0 ∧ hrToDeg ⟨12, 0, 0, 0⟩ = 0 :=
  have h := updateTime_angles_monotone ⟨12, 0, 0, 0⟩ ⟨12, 0, 30, 0⟩
    (by decide) (by decide) (by decide)
  ⟨by decide, by decide, by decide, h.1 (by decide), h.2.1 (by decide), h.2.2.1 (by decide),
    h.2.2.2.1 ⟨12, 0, 0, 0⟩ rfl, h.2.2.2.2.1 ⟨12, 0, 0, 0⟩ rfl rfl,
    h.2.2.2.2.2 ⟨12, 0, 0, 0⟩ (by decide) rfl⟩

/-- C6: at hours 0, minutes 0, seconds 0 all three angles of `updateTime`
are 0 degrees, and at seconds 30 the second angle is exactly 180 degrees,
whatever the hours and minutes. -/
theorem updateTime_angles_fixed_points :
    (∀ ms : Int, secToDeg ⟨0, 0, 0, ms⟩ = 0 ∧ minToDeg ⟨0, 0, 0, ms⟩ = 0 ∧
      hrToDeg ⟨0, 0, 0, ms⟩ = 0) ∧
    (∀ (h m : Nat) (ms : Int), secToDeg ⟨h, m, 30, ms⟩ = 180) := by
  refine ⟨fun ms => ⟨?_, ?_, ?_⟩, fun h m ms => ?_⟩
  · norm_num [secToDeg]
  · norm_num [minToDeg]
  · norm_num [hrToDeg, hours12]
  · norm_num [secToDeg]

/-! ## Dark mode -/

theorem toggleDarkMode_of_some (w : World) (el : TextEl) (h : w.modeSwitch = some el) :
    toggleDarkMode w =
      { w with
        bodyDark := !w.bodyDark
        modeSwitch := some ⟨modeLabel (!w.bodyDark)⟩
        localStorage := w.localStorage.setItem "mode" (modeLiteral (!w.bodyDark)) } := by
  unfold toggleDarkMode modeLabel modeLiteral
  rw [h]

theorem toggleDarkMode_of_none (w : World) (h : w.modeSwitch = none) :
    toggleDarkMode w = w := by
  unfold toggleDarkMode
  rw [h]

theorem getItem_setItem_same (st : Storage) (key value : String) :
    (st.setItem key value).getItem key = some value := by
  simp [Storage.getItem, Storage.setItem]

theorem getItem_setItem_other (st : Storage) (key other value : String) (h : other ≠ key) :
    (st.setItem key value).getItem other = st.getItem other := by
  simp [Storage.getItem, Storage.setItem, h]

/-- C9: with the toggle control present, `toggleDarkMode` negates the
dark-mode flag, sets the label to the next action ("Light Mode" when the page
is now dark, "Dark Mode" when it is now light) and stores under "mode" the
literal "Dark Mode" when the page is now dark and "Light Mode" otherwise. -/
theorem toggleDarkMode_flips (w : World) (h : w.modeSwitch.isSome = true) :
    (toggleDarkMode w).bodyDark = (!w.bodyDark) ∧
    (toggleDarkMode w).modeSwitch.map TextEl.textContent =
      some (if (toggleDarkMode w).bodyDark = true then "Light Mode" else "Dark Mode") ∧
    (toggleDarkMode w).localStorage.getItem "mode" =
      some (if (toggleDarkMode w).bodyDark = true then "Dark Mode" else "Light Mode") ∧
    ((toggleDarkMode w).localStorage.getItem "mode" = some "Dark Mode" ∨
      (toggleDarkMode w).localStorage.getItem "mode" = some "Light Mode") := by
  obtain ⟨el, hel⟩ := Option.isSome_iff_exists.mp h
  rw [toggleDarkMode_of_some w el hel]
  cases hd : w.bodyDark <;> simp [modeLabel, modeLiteral, getItem_setItem_same]

theorem toggleDarkMode_flips_witness :
    (toggleDarkMode samplePage).bodyDark = (!samplePage.bodyDark) ∧
    (toggleDarkMode samplePage).modeSwitch.map TextEl.textContent = some "Light Mode" ∧
    (toggleDarkMode samplePage).localStorage.getItem "mode" = some "Dark Mode" :=
  have h := toggleDarkMode_flips samplePage (by decide)
  ⟨h.1, by decide, by decide⟩

/-- C1, as stated, fails: on a page with the toggle control and nothing
stored under "mode", two calls of `toggleDarkMode` leave "Light Mode" stored,
not the absent value found before the first call. -/
theorem toggleDarkMode_twice_changes_stored_mode :
    samplePage.modeSwitch.isSome = true ∧
    ¬ ((toggleDarkMode (toggleDarkMode samplePage)).bodyDark = samplePage.bodyDark ∧
       (toggleDarkMode (toggleDarkMode samplePage)).localStorage.getItem "mode" =
         samplePage.localStorage.getItem "mode") := by
  decide

/-- C1, amended: with the toggle control present, two calls of
`toggleDarkMode` restore the dark-mode flag; the value stored under "mode"
afterwards is the literal for that flag ("Dark Mode" when dark, "Light Mode"
when light), so it equals the original stored value whenever the original
was that literal. -/
theorem toggleDarkMode_twice (w : World) (h : w.modeSwitch.isSome = true) :
    (toggleDarkMode (toggleDarkMode w)).bodyDark = w.bodyDark ∧
    (toggleDarkMode (toggleDarkMode w)).localStorage.getItem "mode" =
      some (modeLiteral w.bodyDark) ∧
    (w.localStorage.getItem "mode" = some (modeLiteral w.bodyDark) →
      (toggleDarkMode (toggleDarkMode w)).localStorage.getItem "mode" =
        w.localStorage.getItem "mode") := by
  obtain ⟨el, hel⟩ := Option.isSome_iff_exists.mp h
  have h1 := toggleDarkMode_of_some w el hel
  have h2 := toggleDarkMode_of_some (toggleDarkMode w) ⟨modeLabel (!w.bodyDark)⟩
    (by rw [h1])
  have hd : (toggleDarkMode w).bodyDark = (!w.bodyDark) := by rw [h1]
  have hstore : (toggleDarkMode (toggleDarkMode w)).localStorage.getItem "mode" =
      some (modeLiteral w.bodyDark) := by
    rw [h2]
    simp [getItem_setItem_same, hd]
  refine ⟨?_, hstore, fun horig => ?_⟩
  · rw [h2]; simp [hd]
  · rw [hstore, horig]

theorem toggleDarkMode_twice_witness :
    (toggleDarkMode (toggleDarkMode (toggleDarkMode samplePage))).bodyDark =
      (toggleDarkMode samplePage).bodyDark ∧
    (toggleDarkMode (toggleDarkMode (toggleDarkMode samplePage))).localStorage.getItem "mode" =
      (toggleDarkMode samplePage).localStorage.getItem "mode" :=
  have h := toggleDarkMode_twice (toggleDarkMode samplePage) (by decide)
  ⟨h.1, h.2.2 (by decide)⟩

/-! ## Theme -/

theorem setTheme_buttons_dataTheme (name : String) (w : World) :
    (setTheme name w).themeButtons.map ThemeBtn.dataTheme =
      w.themeButtons.map ThemeBtn.dataTheme := by
  simp [setTheme, ThemeBtn.toggleActive, List.map_map, Function.comp_def]

theorem setTheme_button_active (name : String) (w : World) (btn : ThemeBtn)
    (h : btn ∈ (setTheme name w).themeButtons) :
    btn.isActive = decide (btn.dataTheme = some name) := by
  simp only [setTheme, List.mem_map] at h
  obtain ⟨b, _, rfl⟩ := h
  simp [ThemeBtn.toggleActive]

theorem filter_length_map_toggle (name : String) (l : List ThemeBtn) :
    ((l.map (fun btn => btn.toggleActive (decide (btn.dataTheme = some name)))).filter
        (fun btn => btn.isActive)).length =
      (l.filter (fun btn => decide (btn.dataTheme = some name))).length := by
  induction l with
  | nil => rfl
  | cons b l ih =>
    by_cases hb : b.dataTheme = some name
    · simpa [List.filter_cons, ThemeBtn.toggleActive, hb] using ih
    · simpa [List.filter_cons, ThemeBtn.toggleActive, hb] using ih

/-- C2, as stated, fails: on a page with no theme buttons, after
`setTheme("ocean")` no control carries "is-active", so it is not the case
that exactly one does. -/
theorem setTheme_no_button_active :
    (setTheme "ocean" noButtonsPage).localStorage.getItem "theme" = some "ocean" ∧
    activeCount (setTheme "ocean" noButtonsPage) ≠ 1 := by
  decide

/-- C2, amended: after `setTheme(name)` the value stored under "theme" is
exactly `name`, every theme button keeps its `data-theme`, and a theme
button carries "is-active" exactly when its `data-theme` equals `name`; so
the number of active buttons is the number of buttons whose `data-theme` is
`name` (one when the name belongs to exactly one button). -/
theorem setTheme_persists_and_marks (name : String) (w : World) :
    (setTheme name w).localStorage.getItem "theme" = some name ∧
    (setTheme name w).themeButtons.map ThemeBtn.dataTheme =
      w.themeButtons.map ThemeBtn.dataTheme ∧
    (∀ btn ∈ (setTheme name w).themeButtons,
      btn.isActive = true ↔ btn.dataTheme = some name) ∧
    activeCount (setTheme name w) = matchingCount name w := by
  refine ⟨?_, setTheme_buttons_dataTheme name w, fun btn hb => ?_, ?_⟩
  · simp [setTheme, getItem_setItem_same]
  · rw [setTheme_button_active name w btn hb]; simp
  · unfold activeCount matchingCount
    exact filter_length_map_toggle name w.themeButtons

theorem setTheme_persists_and_marks_witness :
    (setTheme "sunset" samplePage).localStorage.getItem "theme" = some "sunset" ∧
    activeCount (setTheme "sunset" samplePage) = 1 ∧
    (⟨some "sunset", true⟩ : ThemeBtn) ∈ (setTheme "sunset" samplePage).themeButtons ∧
    (⟨some "sunset", true⟩ : ThemeBtn).dataTheme = some "sunset" :=
  have h := setTheme_persists_and_marks "sunset" samplePage
  ⟨h.1, h.2.2.2.trans (by decide), by decide,
    (h.2.2.1 ⟨some "sunset", true⟩ (by decide)).mp rfl⟩

/-! ## Independence of theme and mode -/

theorem setItem_comm (st : Storage) (k1 k2 v1 v2 : String) (h : k1 ≠ k2) :
    (st.setItem k1 v1).setItem k2 v2 = (st.setItem k2 v2).setItem k1 v1 := by
  funext k
  unfold Storage.setItem
  by_cases h2 : k = k2
  · subst h2; simp [Ne.symm h]
  · simp [h2]

/-- C10: `setTheme` leaves the dark-mode flag, the toggle control and the
value stored under "mode" unchanged; `toggleDarkMode` leaves the body theme
marker, the theme buttons and the value stored under "theme" unchanged; and
the two calls commute. -/
theorem setTheme_toggleDarkMode_independent (name : String) (w : World) :
    ((setTheme name w).bodyDark = w.bodyDark ∧
      (setTheme name w).modeSwitch = w.modeSwitch ∧
      (setTheme name w).localStorage.getItem "mode" = w.localStorage.getItem "mode") ∧
    ((toggleDarkMode w).bodyTheme = w.bodyTheme ∧
      (toggleDarkMode w).themeButtons = w.themeButtons ∧
      (toggleDarkMode w).localStorage.getItem "theme" = w.localStorage.getItem "theme") ∧
    toggleDarkMode (setTheme name w) = setTheme name (toggleDarkMode w) := by
  refine ⟨⟨rfl, rfl, ?_⟩, ?_, ?_⟩
  · exact getItem_setItem_other _ _ _ _ (by decide)
  · cases hsw : w.modeSwitch with
    | none => rw [toggleDarkMode_of_none w hsw]; exact ⟨rfl, rfl, rfl⟩
    | some el =>
      rw [toggleDarkMode_of_some w el hsw]
      exact ⟨rfl, rfl, getItem_setItem_other _ _ _ _ (by decide)⟩
  · cases hsw : w.modeSwitch with
    | none =>
      rw [toggleDarkMode_of_none w hsw, toggleDarkMode_of_none (setTheme name w) hsw]
    | some el =>
      rw [toggleDarkMode_of_some w el hsw, toggleDarkMode_of_some (setTheme name w) el hsw]
      simp only [setTheme]
      rw [setItem_comm _ "theme" "mode" _ _ (by decide)]

/-! ## Startup -/

theorem startup_bodyTheme (w : World) :
    (startup w).bodyTheme = some (storedThemeOrDefault w.localStorage) := by
  unfold startup syncModeSwitchText restoreMode
  split <;> split <;> rfl

theorem startup_themeButtons (w : World) :
    (startup w).themeButtons =
      (setTheme (storedThemeOrDefault w.localStorage) w).themeButtons := by
  unfold startup syncModeSwitchText restoreMode
  split <;> split <;> rfl

theorem startup_localStorage (w : World) :
    (startup w).localStorage =
      w.localStorage.setItem "theme" (storedThemeOrDefault w.localStorage) := by
  unfold startup syncModeSwitchText restoreMode
  split <;> split <;> rfl

theorem startup_bodyDark (w : World) :
    (startup w).bodyDark =
      (w.bodyDark || decide (w.localStorage.getItem "mode" = some "Dark Mode")) := by
  have hmode : (setTheme (storedThemeOrDefault w.localStorage) w).localStorage.getItem "mode" =
      w.localStorage.getItem "mode" := getItem_setItem_other _ _ _ _ (by decide)
  unfold startup syncModeSwitchText restoreMode
  rw [hmode]
  by_cases hm : w.localStorage.getItem "mode" = some "Dark Mode"
  · rw [if_pos hm]; split <;> simp [hm]
  · rw [if_neg hm]; split <;> simp [hm, setTheme]

theorem restoreMode_modeSwitch (w : World) : (restoreMode w).modeSwitch = w.modeSwitch := by
  unfold restoreMode; split <;> rfl

theorem syncModeSwitchText_bodyDark (w : World) : (syncModeSwitchText w).bodyDark = w.bodyDark := by
  unfold syncModeSwitchText; split <;> rfl

theorem syncModeSwitchText_modeSwitch (w : World) :
    (syncModeSwitchText w).modeSwitch = w.modeSwitch.map (fun _ => ⟨modeLabel w.bodyDark⟩) := by
  unfold syncModeSwitchText modeLabel
  cases h : w.modeSwitch with
  | none => exact h
  | some el => rfl

theorem startup_modeSwitch (w : World) :
    (startup w).modeSwitch = w.modeSwitch.map (fun _ => ⟨modeLabel (startup w).bodyDark⟩) := by
  unfold startup
  rw [syncModeSwitchText_modeSwitch, syncModeSwitchText_bodyDark, restoreMode_modeSwitch]
  rfl

/-- C7: startup restores the preferences with defaults.  With nothing stored
under "theme" the body theme marker becomes "ocean" and every theme button
whose `data-theme` is "ocean" carries "is-active".  On a page with the toggle
control and a body not yet dark, a stored mode "Dark Mode" makes the page
dark with label "Light Mode", the storage under "mode" left as it was; any
other stored mode, an absent one included, leaves the page light with label
"Dark Mode". -/
theorem startup_restores_defaults (w : World) :
    (w.localStorage.getItem "theme" = none →
      (startup w).bodyTheme = some "ocean" ∧
      (startup w).themeButtons.map ThemeBtn.dataTheme =
        w.themeButtons.map ThemeBtn.dataTheme ∧
      ∀ btn ∈ (startup w).themeButtons, btn.dataTheme = some "ocean" → btn.isActive = true) ∧
    (w.modeSwitch.isSome = true → w.bodyDark = false →
      w.localStorage.getItem "mode" = some "Dark Mode" →
      (startup w).bodyDark = true ∧
      (startup w).modeSwitch.map TextEl.textContent = some "Light Mode" ∧
      (startup w).localStorage.getItem "mode" = some "Dark Mode") ∧
    (w.modeSwitch.isSome = true → w.bodyDark = false →
      w.localStorage.getItem "mode" ≠ some "Dark Mode" →
      (startup w).bodyDark = false ∧
      (startup w).modeSwitch.map TextEl.textContent = some "Dark Mode") := by
  refine ⟨fun hth => ?_, fun hsw hd hm => ?_, fun hsw hd hm => ?_⟩
  · have hdef : storedThemeOrDefault w.localStorage = "ocean" := by
      unfold storedThemeOrDefault; rw [hth]
    refine ⟨?_, ?_, fun btn hb hbt => ?_⟩
    · rw [startup_bodyTheme, hdef]
    · rw [startup_themeButtons, setTheme_buttons_dataTheme]
    · rw [startup_themeButtons, hdef] at hb
      rw [setTheme_button_active "ocean" w btn hb]
      simp [hbt]
  · obtain ⟨el, hel⟩ := Option.isSome_iff_exists.mp hsw
    have hdark : (startup w).bodyDark = true := by rw [startup_bodyDark]; simp [hm]
    refine ⟨hdark, ?_, ?_⟩
    · rw [startup_modeSwitch, hdark, hel]; rfl
    · rw [startup_localStorage, getItem_setItem_other _ _ _ _ (by decide), hm]
  · obtain ⟨el, hel⟩ := Option.isSome_iff_exists.mp hsw
    have hdark : (startup w).bodyDark = false := by rw [startup_bodyDark]; simp [hm, hd]
    refine ⟨hdark, ?_⟩
    rw [startup_modeSwitch, hdark, hel]; rfl

theorem startup_restores_defaults_witness :
    ((startup samplePage).bodyTheme = some "ocean" ∧
      (startup samplePage).bodyDark = false ∧
      (startup samplePage).modeSwitch.map TextEl.textContent = some "Dark Mode") ∧
    ((startup darkStoredPage).bodyDark = true ∧
      (startup darkStoredPage).modeSwitch.map TextEl.textContent = some "Light Mode") :=
  have h1 := startup_restores_defaults samplePage
  have h2 := startup_restores_defaults darkStoredPage
  have l := h1.2.2 (by decide) (by decide) (by decide)
  have d := h2.2.1 (by decide) (by decide) (by decide)
  ⟨⟨(h1.1 (by decide)).1, l.1, l.2⟩, ⟨d.1, d.2.1⟩⟩

/-! ## The tick -/

theorem updateTime_eq (fmtTime fmtDate : JsDate → String) (date : JsDate) (w : World) :
    updateTime fmtTime fmtDate date w =
      .ok { w with
        secondHand := w.secondHand.map (fun h => { h with transform := some (.rotateDeg (secToDeg date)) })
        minuteHand := w.minuteHand.map (fun h => { h with transform := some (.rotateDeg (minToDeg date)) })
        hourHand := w.hourHand.map (fun h => { h with transform := some (.rotateDeg (hrToDeg date)) })
        digitalTimeEl := w.digitalTimeEl.map (fun e => { e with textContent := fmtTime date })
        digitalDateEl := w.digitalDateEl.map (fun e => { e with textContent := fmtDate date }) } := by
  obtain ⟨_, _, hh, mh, sh, _, te, de, _, _⟩ := w
  cases hh <;> cases mh <;> cases sh <;> cases te <;> cases de <;> rfl

/-- C8: whichever of the six looked-up elements are absent, `updateTime`
completes without error; every hand that is present gets the rotation
computed for it and every digital output that is present gets its formatted
text, absent elements stay absent and nothing else (the toggle control, the
body, the theme buttons, the storage) is touched; and the value a present
element receives is the same on any other page, whatever is absent there. -/
theorem updateTime_tolerates_missing (fmtTime fmtDate : JsDate → String) (date : JsDate)
    (w : World) :
    ∃ w', updateTime fmtTime fmtDate date w = .ok w' ∧
      w'.secondHand = w.secondHand.map (fun _ => ⟨some (.rotateDeg (secToDeg date))⟩) ∧
      w'.minuteHand = w.minuteHand.map (fun _ => ⟨some (.rotateDeg (minToDeg date))⟩) ∧
      w'.hourHand = w.hourHand.map (fun _ => ⟨some (.rotateDeg (hrToDeg date))⟩) ∧
      w'.digitalTimeEl = w.digitalTimeEl.map (fun _ => ⟨fmtTime date⟩) ∧
      w'.digitalDateEl = w.digitalDateEl.map (fun _ => ⟨fmtDate date⟩) ∧
      (w'.modeSwitch = w.modeSwitch ∧ w'.bodyTheme = w.bodyTheme ∧ w'.bodyDark = w.bodyDark ∧
        w'.themeButtons = w.themeButtons ∧ w'.localStorage = w.localStorage) ∧
      ∀ v : World, ∃ v', updateTime fmtTime fmtDate date v = .ok v' ∧
        (w.secondHand.isSome = true → v.secondHand.isSome = true →
          v'.secondHand = w'.secondHand) ∧
        (w.minuteHand.isSome = true → v.minuteHand.isSome = true →
          v'.minuteHand = w'.minuteHand) ∧
        (w.hourHand.isSome = true → v.hourHand.isSome = true →
          v'.hourHand = w'.hourHand) ∧
        (w.digitalTimeEl.isSome = true → v.digitalTimeEl.isSome = true →
          v'.digitalTimeEl = w'.digitalTimeEl) ∧
        (w.digitalDateEl.isSome = true → v.digitalDateEl.isSome = true →
          v'.digitalDateEl = w'.digitalDateEl) := by
  refine ⟨_, updateTime_eq fmtTime fmtDate date w, rfl, rfl, rfl, rfl, rfl,
    ⟨rfl, rfl, rfl, rfl, rfl⟩, fun v => ⟨_, updateTime_eq fmtTime fmtDate date v, ?_⟩⟩
  refine ⟨?_, ?_, ?_, ?_, ?_⟩ <;>
  · intro hw hv
    obtain ⟨a, ha⟩ := Option.isSome_iff_exists.mp hw
    obtain ⟨b, hb⟩ := Option.isSome_iff_exists.mp hv
    simp [ha, hb]

theorem updateTime_tolerates_missing_witness :
    ∃ w' v', updateTime (fun _ => "09:41:30") (fun _ => "qua.") sampleDate sparsePage = .ok w' ∧
      updateTime (fun _ => "09:41:30") (fun _ => "qua.") sampleDate samplePage = .ok v' ∧
      w'.secondHand = none ∧ v'.minuteHand = w'.minuteHand := by
  obtain ⟨w', hw, hs, _, _, _, _, _, hv⟩ :=
    updateTime_tolerates_missing (fun _ => "09:41:30") (fun _ => "qua.") sampleDate sparsePage
  obtain ⟨v', hv', _, hm, _⟩ := hv samplePage
  exact ⟨w', v', hw, hv', hs, hm (by decide) (by decide)⟩

/-! ## Reload -/

theorem map_toggleActive_eq (t : String) :
    ∀ l1 l2 : List ThemeBtn,
      l1.map ThemeBtn.dataTheme = l2.map ThemeBtn.dataTheme →
      (∀ btn ∈ l2, btn.isActive = decide (btn.dataTheme = some t)) →
      l1.map (fun btn => btn.toggleActive (decide (btn.dataTheme = some t))) = l2 := by
  intro l1
  induction l1 with
  | nil =>
    intro l2 hmap _
    cases l2 with
    | nil => rfl
    | cons b l2 => simp at hmap
  | cons a l1 ih =>
    intro l2 hmap hact
    cases l2 with
    | nil => simp at hmap
    | cons b l2 =>
      simp only [List.map_cons, List.cons.injEq] at hmap
      have hb := hact b (List.mem_cons_self _ _)
      have htl := ih l2 hmap.2 (fun btn hbtn => hact btn (List.mem_cons_of_mem _ hbtn))
      simp only [List.map_cons, htl, List.cons.injEq, and_true]
      obtain ⟨da, aa⟩ := a
      obtain ⟨db, ab⟩ := b
      simp only [ThemeBtn.toggleActive, ThemeBtn.mk.injEq]
      simp only at hb
      have hda : da = db := hmap.1
      subst hda
      exact ⟨rfl, hb.symm⟩

theorem storedThemeOrDefault_ne_empty (st : Storage) : storedThemeOrDefault st ≠ "" := by
  unfold storedThemeOrDefault
  split
  · split
    · decide
    · assumption
  · decide

theorem storedThemeOrDefault_of_some (st : Storage) (t : String)
    (h : st.getItem "theme" = some t) (hne : t ≠ "") : storedThemeOrDefault st = t := by
  unfold storedThemeOrDefault
  rw [h]
  simp [hne]

theorem startup_synced (w : World) (hd : w.bodyDark = false) : Synced (startup w) := by
  refine ⟨storedThemeOrDefault w.localStorage, ?_, startup_bodyTheme w, ?_, ?_, ?_⟩
  · rw [startup_localStorage, getItem_setItem_same]
  · intro btn hb
    rw [startup_themeButtons] at hb
    exact setTheme_button_active _ w btn hb
  · rw [startup_bodyDark, startup_localStorage, getItem_setItem_other _ _ _ _ (by decide), hd]
    simp
  · rw [startup_modeSwitch]
    cases w.modeSwitch <;> rfl

theorem setTheme_synced (name : String) (s : World) (h : Synced s) : Synced (setTheme name s) := by
  obtain ⟨t, _, _, _, hdark, hsw⟩ := h
  refine ⟨name, ?_, rfl, fun btn hb => setTheme_button_active name s btn hb, ?_, hsw⟩
  · simp [setTheme, getItem_setItem_same]
  · have hmode : (setTheme name s).localStorage.getItem "mode" = s.localStorage.getItem "mode" :=
      getItem_setItem_other _ _ _ _ (by decide)
    rw [hmode]
    exact hdark

theorem toggleDarkMode_synced (s : World) (h : Synced s) : Synced (toggleDarkMode s) := by
  cases hsw : s.modeSwitch with
  | none => rw [toggleDarkMode_of_none s hsw]; exact h
  | some el =>
    obtain ⟨t, hst, hbt, hact, _, _⟩ := h
    rw [toggleDarkMode_of_some s el hsw]
    refine ⟨t, ?_, hbt, hact, ?_, rfl⟩
    · rw [getItem_setItem_other _ _ _ _ (by decide)]
      exact hst
    · rw [getItem_setItem_same]
      cases s.bodyDark <;> simp [modeLiteral]

theorem runActions_synced (acts : List Action) :
    ∀ s : World, Synced s → Synced (runActions acts s) := by
  induction acts with
  | nil => intro s h; exact h
  | cons a acts ih =>
    intro s h
    unfold runActions
    rw [List.foldl_cons]
    apply ih
    cases a with
    | setTheme name => exact setTheme_synced name s h
    | toggleDarkMode => exact toggleDarkMode_synced s h

theorem session_synced (page : World) (acts : List Action) (hd : page.bodyDark = false) :
    Synced (session page acts) :=
  runActions_synced acts _ (startup_synced page hd)

theorem startup_of_synced (s fresh : World) (hs : Synced s) (hf : FreshPageFor s fresh)
    (hne : s.localStorage.getItem "theme" ≠ some "") :
    (startup fresh).bodyTheme = s.bodyTheme ∧
    (startup fresh).themeButtons = s.themeButtons ∧
    (startup fresh).bodyDark = s.bodyDark ∧
    (startup fresh).modeSwitch = s.modeSwitch := by
  obtain ⟨t, hst, hbt, hact, hdark, hsw⟩ := hs
  obtain ⟨fd, fst, fbtn, fsw⟩ := hf
  have htne : t ≠ "" := fun e => hne (by rw [hst, e])
  have hdef : storedThemeOrDefault fresh.localStorage = t := by
    rw [fst]; exact storedThemeOrDefault_of_some _ t hst htne
  have hD : (startup fresh).bodyDark = s.bodyDark := by
    rw [startup_bodyDark, fd, fst, hdark]; simp
  refine ⟨?_, ?_, hD, ?_⟩
  · rw [startup_bodyTheme, hdef, hbt]
  · rw [startup_themeButtons, hdef]
    exact map_toggleActive_eq t _ _ fbtn hact
  · rw [startup_modeSwitch, hD, hsw]
    cases hf1 : fresh.modeSwitch <;> cases hs1 : s.modeSwitch <;> simp_all

/-- C3, as stated, fails: the empty string is a name a control may carry,
and after `setTheme("")` the startup sequence on the reloaded page applies
"ocean", so the body theme marker and the active theme buttons differ from
those before the reload. -/
theorem reload_loses_empty_theme :
    blankThemePage.bodyDark = false ∧
    FreshPageFor (session blankThemePage [.setTheme ""]) blankThemeReload ∧
    (startup blankThemeReload).bodyTheme ≠ (session blankThemePage [.setTheme ""]).bodyTheme ∧
    (startup blankThemeReload).themeButtons ≠
      (session blankThemePage [.setTheme ""]).themeButtons := by
  refine ⟨rfl, ⟨rfl, rfl, by decide, by decide⟩, by decide, by decide⟩

/-- C3, amended: theme and mode survive a page load whenever the stored
theme is not the empty string.  For every state reached from startup (on a
page whose body is not dark) by any sequence of `setTheme` and
`toggleDarkMode` calls, if the theme stored in that state is not "", the
startup sequence on a fresh page with the same controls and the same storage
yields the same body theme marker, the same theme buttons with the same
"is-active" marks, the same dark-mode flag and the same toggle label. -/
theorem reload_preserves_theme_and_mode (page fresh : World) (acts : List Action)
    (hpage : page.bodyDark = false)
    (hfresh : FreshPageFor (session page acts) fresh)
    (hne : (session page acts).localStorage.getItem "theme" ≠ some "") :
    (startup fresh).bodyTheme = (session page acts).bodyTheme ∧
    (startup fresh).themeButtons = (session page acts).themeButtons ∧
    (startup fresh).bodyDark = (session page acts).bodyDark ∧
    (startup fresh).modeSwitch = (session page acts).modeSwitch :=
  startup_of_synced _ fresh (session_synced page acts hpage) hfresh hne

theorem reload_preserves_theme_and_mode_witness :
    (startup sampleReload).bodyTheme = some "sunset" ∧
    (startup sampleReload).bodyTheme =
      (session samplePage [.setTheme "sunset", .toggleDarkMode]).bodyTheme ∧
    (startup sampleReload).themeButtons =
      (session samplePage [.setTheme "sunset", .toggleDarkMode]).themeButtons ∧
    (startup sampleReload).bodyDark =
      (session samplePage [.setTheme "sunset", .toggleDarkMode]).bodyDark ∧
    (startup sampleReload).modeSwitch =
      (session samplePage [.setTheme "sunset", .toggleDarkMode]).modeSwitch :=
  ⟨by decide,
    reload_preserves_theme_and_mode samplePage sampleReload [.setTheme "sunset", .toggleDarkMode]
      rfl ⟨rfl, rfl, by decide, by decide⟩ (by decide)⟩

end Relogio
